import Mathlib

/-!
# HackStack spaced-repetition core: a shallow embedding

This file embeds the spaced-repetition scheduler and card-supply pipeline of
the HackStack repository in Lean 4 and proves properties about it.

JS numbers are modelled as `ℚ` (all arithmetic in the embedded code is exact
on rationals: `+`, `*`, `/`, `Math.max`, `Math.min`, `Math.round`).
`Math.max`, `Math.min` and `Math.round` are embedded as the executable
functions `jsMax`, `jsMin` and `jsRound` below, each bridged to the Mathlib
notion (`max`, `min`, `round`) by a lemma; `Math.round x` in JS is
`⌊x + 1/2⌋` for every real `x`, which is Mathlib's `round`.
Nullable fields (`undefined` / SQL NULL) are modelled as `Option`.
The record store is a `List` of rows; `select ... where p ... limit n` is
`(filter p).take n`, `update ... where p` maps over the list, `insert`
appends.  Fallible operations return `Except`.

Where the JS source relies on falsiness (`x || d`, `if (!x)`, `x ? a : b`),
the embedding spells the falsy cases out (`none` and `0`), with a comment at
each site.
-/

/-- JS `Math.max` on two numbers (no NaN in the rational model). -/
def jsMax (a b : ℚ) : ℚ := if a ≤ b then b else a

/-- JS `Math.min` on two numbers. -/
def jsMin (a b : ℚ) : ℚ := if a ≤ b then a else b

/-- JS `Math.round`: round half toward positive infinity, i.e. `⌊x + 1/2⌋`.
Written with `Rat.floor` so that it evaluates on concrete inputs. -/
def jsRound (x : ℚ) : ℤ := Rat.floor (x + 0.5)

theorem jsMax_eq (a b : ℚ) : jsMax a b = max a b := (max_def a b).symm

theorem jsMin_eq (a b : ℚ) : jsMin a b = min a b := (min_def a b).symm

theorem jsRound_eq (x : ℚ) : jsRound x = round x := by
  rw [jsRound, round_eq, Rat.floor_def, Rat.floor_def']
  norm_num

theorem le_jsMax_left (a b : ℚ) : a ≤ jsMax a b := by
  rw [jsMax_eq]; exact le_max_left a b

/-! ## srsAlgorithm.ts -/

structure SRSState where
  interval : ℚ
  easeFactor : ℚ
  repetitions : ℚ
deriving Repr, DecidableEq

structure ReviewQuality where
  quality : ℚ
  responseTime : Option ℚ
deriving Repr, DecidableEq

/-- `calculateNextReview` from srsAlgorithm.ts: the SM-2 update. -/
def calculateNextReview (currentState : SRSState) (review : ReviewQuality) :
    SRSState :=
  -- Clamp quality between 0-5
  let q := jsMax 0 (jsMin 5 review.quality)
  -- Calculate new ease factor, floored at 1.3
  let newEaseFactor :=
    jsMax 1.3 (currentState.easeFactor + (0.1 - (5 - q) * (0.08 + (5 - q) * 0.02)))
  if q < 3 then
    -- Failed review - reset interval and repetitions
    { interval := 1, easeFactor := newEaseFactor, repetitions := 0 }
  else
    -- Passed review - increase interval
    let newInterval : ℚ :=
      if currentState.repetitions = 0 then 1
      else if currentState.repetitions = 1 then 6
      else (jsRound (currentState.interval * newEaseFactor) : ℤ)
    { interval := newInterval, easeFactor := newEaseFactor,
      repetitions := currentState.repetitions + 1 }

/-- Milliseconds in a day, used by all the timestamp arithmetic. -/
def msPerDay : ℚ := 24 * 60 * 60 * 1000

/-- `getNextReviewDate` from srsAlgorithm.ts, with `Date.now()` made an
explicit `now` argument (epoch milliseconds). -/
def getNextReviewDate (now : ℚ) (intervalDays : ℚ) : ℚ :=
  now + intervalDays * msPerDay

/-- `swipeToQuality` from srsAlgorithm.ts.  NOTE: the source guards with
`if (!responseTime)`, and in JS `!0 === true`, so a provided response time of
`0` ms takes the "no response time" branch and yields quality 4. -/
def swipeToQuality (correct : Bool) (responseTime : Option ℚ) : ReviewQuality :=
  if !correct then
    { quality := 0, responseTime := responseTime } -- Complete failure
  else
    match responseTime with
    | none => { quality := 4, responseTime := none } -- Default good response
    | some t =>
      if t = 0 then
        -- JS falsiness: `!responseTime` is true for 0
        { quality := 4, responseTime := some t }
      else if t < 3000 then { quality := 5, responseTime := some t }
      else if t < 7000 then { quality := 4, responseTime := some t }
      else if t < 15000 then { quality := 3, responseTime := some t }
      else { quality := 3, responseTime := some t }

/-- `calculateMasteryScore` from srsAlgorithm.ts.  Note the source clamps the
weighted TOTAL into [0,100]; the ease component itself is unclamped and the
repetition component is only capped above (`Math.min(repetitions / 10, 1)`). -/
def calculateMasteryScore (state : SRSState) : ℤ :=
  let easeScore := (state.easeFactor - 1.3) / (2.5 - 1.3) * 100
  let repScore := jsMin (state.repetitions / 10) 1 * 100
  let mastery := easeScore * 0.4 + repScore * 0.6
  jsRound (jsMax 0 (jsMin 100 mastery))

inductive CardStatus
  | new
  | learning
  | review
  | mastered
deriving Repr, DecidableEq

/-- `getCardStatus` from srsAlgorithm.ts. -/
def getCardStatus (state : SRSState) : CardStatus :=
  let mastery := calculateMasteryScore state
  if state.repetitions = 0 then .new
  else if mastery < 50 then .learning
  else if mastery < 80 then .review
  else .mastered

/-- `createInitialSRSState` from srsAlgorithm.ts. -/
def createInitialSRSState : SRSState :=
  { interval := 1, easeFactor := 2.5, repetitions := 0 }

/-! ## Data model (types/index.ts and core/db/schema.ts)

`Card` is the content-only value handed to the UI.  `DbCard` is a row of the
`cards` SQLite table; the enum-valued text columns `lang`, `difficulty`,
`type` and `source` are kept as strings with the values the code uses
(`source` is one of "ai", "bundled", "community", "session" — the spec calls
these "generated", "bundled" and "session-added").  `status` is stored as the
`CardStatus` union.  Timestamps are epoch milliseconds. -/

structure Card where
  id : String
  type : String
  lang : String
  difficulty : String
  question : String
  answer : String
  explanation : String
  roast : String
deriving Repr, DecidableEq

structure Loadout where
  language : String
  topics : List String
  difficulty : String
  sessionLength : ℚ
deriving Repr, DecidableEq

structure DbCard where
  id : String
  type : String
  lang : String
  difficulty : String
  question : String
  answer : String
  explanation : String
  roast : String
  source : String
  aiModel : Option String
  topic : Option String
  createdAt : ℚ
  status : CardStatus
  masteryScore : ℤ
  nextReview : Option ℚ
  intervalDays : ℚ
  easeFactor : ℚ
  reviewCount : ℚ
  timesSeen : ℚ
  timesCorrect : ℚ
  timesWrong : ℚ
  avgResponseTime : Option ℚ
deriving Repr, DecidableEq

/-- `dbToCard` (identical private helper in DeckService and ReviewScheduler):
keep the content fields, drop the scheduling metadata.  (`dbCard.roast || ""`
is the identity on a non-null string column whose only falsy value is
already `""`.) -/
def dbToCard (dbCard : DbCard) : Card :=
  { id := dbCard.id, type := dbCard.type, lang := dbCard.lang,
    difficulty := dbCard.difficulty, question := dbCard.question,
    answer := dbCard.answer, explanation := dbCard.explanation,
    roast := dbCard.roast }

/-- The argument record of `geminiClient.generateCards` (`GenerateCardsOptions`). -/
structure GenRequest where
  language : String
  topics : List String
  difficulty : String
  count : ℕ
  previousTopics : List String
deriving Repr, DecidableEq

/-- The external generator: an opaque function that either yields a batch of
cards or fails (`GeneratorError`, modelled as a `String` message). -/
def Generator : Type := GenRequest → Except String (List Card)

/-! ## deckService.ts (class DeckService)

Each method takes the database contents (`db : List DbCard`) and the current
time explicitly; methods that write return the new database contents.  The
`insertFails : Bool` parameter models whether the store's `insert` throws
(used by `saveToCache`, whose own try/catch swallows exactly that error). -/

namespace DeckService

/-- `getCachedCards`: rows matching the loadout's language and difficulty
with `source = "ai"` created within the last 7 days, capped at `limit`. -/
def getCachedCards (db : List DbCard) (now : ℚ) (loadout : Loadout)
    (limit : ℕ) : List Card :=
  let oneWeekAgoTimestamp := now - 7 * 24 * 60 * 60 * 1000
  (((db.filter (fun r =>
      r.lang == loadout.language && r.difficulty == loadout.difficulty &&
      r.source == "ai" && decide (oneWeekAgoTimestamp ≤ r.createdAt))).take
    limit).map dbToCard)

/-- The row `saveToCache` builds for a freshly generated card. -/
def cacheRow (now : ℚ) (card : Card) : DbCard :=
  { id := card.id, type := card.type, lang := card.lang,
    difficulty := card.difficulty, question := card.question,
    answer := card.answer, explanation := card.explanation,
    roast := card.roast, source := "ai", aiModel := none, topic := none,
    createdAt := now, status := CardStatus.new, masteryScore := 0,
    nextReview := none, intervalDays := 1, easeFactor := 2.5,
    reviewCount := 0, timesSeen := 0, timesCorrect := 0, timesWrong := 0,
    avgResponseTime := none }

/-- `saveToCache`: inserts the generated cards; its try/catch swallows an
insert failure (the database is then unchanged) and never rethrows. -/
def saveToCache (insertFails : Bool) (db : List DbCard) (now : ℚ)
    (newCards : List Card) : List DbCard :=
  if insertFails then db else db ++ newCards.map (cacheRow now)

/-- `getBundledCards`: rows with the loadout's language and
`source = "bundled"` (no difficulty or age filter), capped at `limit`. -/
def getBundledCards (db : List DbCard) (loadout : Loadout) (limit : ℕ) :
    List Card :=
  (((db.filter (fun r =>
      r.lang == loadout.language && r.source == "bundled")).take limit).map
    dbToCard)

/-- `fetchCards`: cache first; if the cache cannot cover `count`, call the
generator for the difference and persist the result; any error raised inside
the `try` (in particular a generator failure) falls back to bundled cards.
Returns the card list and the database contents after the call. -/
def fetchCards (gen : Generator) (insertFails : Bool) (db : List DbCard)
    (now : ℚ) (loadout : Loadout) (count : ℕ) : List Card × List DbCard :=
  let cachedCards := getCachedCards db now loadout count
  if count ≤ cachedCards.length then
    (cachedCards.take count, db)
  else
    let needed := count - cachedCards.length
    match gen { language := loadout.language, topics := loadout.topics,
                difficulty := loadout.difficulty, count := needed,
                previousTopics := [] } with
    | Except.ok newCards =>
      let db2 := saveToCache insertFails db now newCards
      ((cachedCards ++ newCards).take count, db2)
    | Except.error _ =>
      -- logger.error, then bundled fallback; the db is unchanged
      (getBundledCards db loadout count, db)

/-- `clearOldCache`: issues
`delete from cards where source = "ai" and createdAt >= now - 30 days`.
Note the direction of the comparison (`gte` in the source): the rows that
REMAIN are those failing the predicate. -/
def clearOldCache (db : List DbCard) (now : ℚ) : List DbCard :=
  let thirtyDaysAgoTimestamp := now - 30 * 24 * 60 * 60 * 1000
  db.filter (fun r =>
    !(r.source == "ai" && decide (thirtyDaysAgoTimestamp ≤ r.createdAt)))

/-- `prefetchCards`: calls the generator directly and persists the result;
any error is caught and logged.  The source returns `Promise<void>` — no
card list is handed back to the caller, only the new cache contents. -/
def prefetchCards (gen : Generator) (insertFails : Bool) (db : List DbCard)
    (now : ℚ) (loadout : Loadout) (count : ℕ) : List DbCard :=
  match gen { language := loadout.language, topics := loadout.topics,
              difficulty := loadout.difficulty, count := count,
              previousTopics := [] } with
  | Except.ok newCards => saveToCache insertFails db now newCards
  | Except.error _ => db -- caught and logged

end DeckService

/-! ## reviewScheduler.ts (class ReviewScheduler) -/

namespace ReviewScheduler

/-- The `where` clause of `getDueCards`:
`nextReview <= now OR nextReview IS NULL OR status = "new"`
(SQL `lte` on a NULL column is not satisfied). -/
def dueFilter (now : ℚ) (r : DbCard) : Bool :=
  (match r.nextReview with
   | some t => decide (t ≤ now)
   | none => false) ||
  r.nextReview == none || r.status == CardStatus.new

/-- `getDueCards`: due rows capped at `limit`, converted to content cards. -/
def getDueCards (db : List DbCard) (now : ℚ) (limit : ℕ) : List Card :=
  ((db.filter (dueFilter now)).take limit).map dbToCard

/-- `getOverdueCards`: rows with `nextReview <= now - 1 day`; no limit. -/
def getOverdueCards (db : List DbCard) (now : ℚ) : List Card :=
  (db.filter (fun r =>
    match r.nextReview with
    | some t => decide (t ≤ now - 24 * 60 * 60 * 1000)
    | none => false)).map dbToCard

/-- JS `x || d` on a non-null numeric column: `0` falls back to `d`. -/
def orDefault (x : ℚ) (d : ℚ) : ℚ := if x = 0 then d else x

/-- JS `x || d` on a nullable numeric column: `undefined` and `0` fall back. -/
def orDefaultOpt (x : Option ℚ) (d : ℚ) : ℚ :=
  match x with
  | none => d
  | some t => if t = 0 then d else t

/-- `recordReview`: load the row (NotFound error if absent), classify the
swipe, run the SM-2 update, and write every derived field back.  `update ...
where id = cardId` touches every row with that id. -/
def recordReview (db : List DbCard) (now : ℚ) (cardId : String)
    (correct : Bool) (responseTime : Option ℚ) :
    Except String (List DbCard) :=
  match db.find? (fun r => r.id == cardId) with
  | none => Except.error "Card not found"
  | some currentCard =>
    let currentState : SRSState :=
      { interval := orDefault currentCard.intervalDays 1,
        easeFactor := orDefault currentCard.easeFactor 2.5,
        repetitions := orDefault currentCard.reviewCount 0 }
    let quality := swipeToQuality correct responseTime
    let nextState := calculateNextReview currentState quality
    let nextReviewDate := getNextReviewDate now nextState.interval
    let masteryScore := calculateMasteryScore nextState
    let status := getCardStatus nextState
    let newTimesSeen := currentCard.timesSeen + 1
    let newTimesCorrect := currentCard.timesCorrect + (if correct then 1 else 0)
    let newTimesWrong := currentCard.timesWrong + (if correct then 0 else 1)
    let prevAvg := orDefaultOpt currentCard.avgResponseTime 0
    -- `responseTime ? round(...) : prevAvg` — JS falsiness again: a sample
    -- of 0 ms keeps the previous average
    let newAvg : ℚ :=
      match responseTime with
      | none => prevAvg
      | some t =>
        if t = 0 then prevAvg
        else (jsRound ((prevAvg * currentCard.timesSeen + t) / newTimesSeen) : ℤ)
    Except.ok (db.map (fun r =>
      if r.id == cardId then
        { r with
          nextReview := some nextReviewDate,
          intervalDays := nextState.interval,
          easeFactor := nextState.easeFactor,
          reviewCount := nextState.repetitions,
          masteryScore := masteryScore, status := status,
          timesSeen := newTimesSeen, timesCorrect := newTimesCorrect,
          timesWrong := newTimesWrong, avgResponseTime := some newAvg }
      else r))

/-- `addToReviewDeck`: re-fail an existing row, or insert a fresh one with
the initial SRS state, status "learning", seen once, wrong once,
`source = "session"` (the spec's "session-added" tag). -/
def addToReviewDeck (db : List DbCard) (now : ℚ) (card : Card) :
    Except String (List DbCard) :=
  match db.find? (fun r => r.id == card.id) with
  | some _ => recordReview db now card.id false none
  | none =>
    let initialState := createInitialSRSState
    let nextReview := getNextReviewDate now initialState.interval
    Except.ok (db ++ [{
      id := card.id, type := card.type, lang := card.lang,
      difficulty := card.difficulty, question := card.question,
      answer := card.answer, explanation := card.explanation,
      roast := card.roast, source := "session", aiModel := none,
      topic := none, createdAt := now, status := CardStatus.learning,
      masteryScore := 0, nextReview := some nextReview,
      intervalDays := initialState.interval,
      easeFactor := initialState.easeFactor, reviewCount := 0,
      timesSeen := 1, timesCorrect := 0, timesWrong := 1,
      avgResponseTime := none }])

end ReviewScheduler

/-! ## store/slices/deckSlice.ts (Session Queue) -/

structure DeckSliceState where
  queue : List Card
  currentIndex : ℕ
  isGenerating : Bool
  loadout : Option Loadout
deriving Repr, DecidableEq

namespace DeckSlice

/-- `needsRefill`: `queue.length - currentIndex < 3` (computed in ℤ, as JS
subtraction can go negative). -/
def needsRefill (s : DeckSliceState) : Bool :=
  decide ((s.queue.length : ℤ) - (s.currentIndex : ℤ) < 3)

/-- `addCards`: append to the queue tail, cursor untouched. -/
def addCards (s : DeckSliceState) (cards : List Card) : DeckSliceState :=
  { s with queue := s.queue ++ cards }

/-- `setQueue`: replace the queue and reset the cursor. -/
def setQueue (s : DeckSliceState) (cards : List Card) : DeckSliceState :=
  { s with queue := cards, currentIndex := 0 }

/-- `refillQueue`: guarded by loadout presence, the in-flight flag and
`needsRefill`.  When it runs, it sets `isGenerating`, awaits
`deckService.prefetchCards(loadout)` — which returns `Promise<void>`, so the
local `newCards` is `undefined`; the subsequent `newCards.length > 0` throws
a TypeError that the `catch` block swallows, so `addCards` is NEVER reached —
and the `finally` clears `isGenerating`.  Net effect: the queue and cursor
are unchanged and only the cache (db) grows. -/
def refillQueue (gen : Generator) (insertFails : Bool) (db : List DbCard)
    (now : ℚ) (s : DeckSliceState) : DeckSliceState × List DbCard :=
  match s.loadout with
  | none => (s, db)
  | some loadout =>
    if s.isGenerating || !(needsRefill s) then (s, db)
    else
      let db2 := DeckService.prefetchCards gen insertFails db now loadout 5
      ({ s with isGenerating := false }, db2)

end DeckSlice

/-! ## Review-state engine properties (claims C4, C5, C6, C7) -/

/-- C4: for every SRSState and every quality rating whose clamp to [0,5] is
below 3, `calculateNextReview` yields interval 1 and repetitions 0,
regardless of the prior interval and repetitions. -/
theorem calculateNextReview_failure_resets (s : SRSState) (r : ReviewQuality)
    (h : jsMax 0 (jsMin 5 r.quality) < 3) :
    (calculateNextReview s r).interval = 1 ∧
    (calculateNextReview s r).repetitions = 0 := by
  unfold calculateNextReview
  rw [if_pos h]
  exact ⟨rfl, rfl⟩

/-- Witness for C4 at a concrete state and rating. -/
theorem calculateNextReview_failure_resets_witness :
    jsMax 0 (jsMin 5 (2 : ℚ)) < 3 ∧
    ((calculateNextReview { interval := 17, easeFactor := 2, repetitions := 9 }
        { quality := 2, responseTime := none }).interval = 1 ∧
      (calculateNextReview { interval := 17, easeFactor := 2, repetitions := 9 }
        { quality := 2, responseTime := none }).repetitions = 0) :=
  ⟨by norm_num [jsMax, jsMin],
   calculateNextReview_failure_resets
     { interval := 17, easeFactor := 2, repetitions := 9 }
     { quality := 2, responseTime := none } (by norm_num [jsMax, jsMin])⟩

/-- Every single SM-2 update lands at or above the 1.3 ease floor. -/
theorem easeFactor_step_floor (s : SRSState) (r : ReviewQuality) :
    (1.3 : ℚ) ≤ (calculateNextReview s r).easeFactor := by
  unfold calculateNextReview
  by_cases hq : jsMax 0 (jsMin 5 r.quality) < 3
  · rw [if_pos hq]
    exact le_jsMax_left _ _
  · rw [if_neg hq]
    exact le_jsMax_left _ _

/-- The sequence of states visited when a list of ratings is applied one by
one with `calculateNextReview`, the start state included. -/
def srsTrajectory (s : SRSState) : List ReviewQuality → List SRSState
  | [] => [s]
  | r :: rs => s :: srsTrajectory (calculateNextReview s r) rs

/-- C5: starting from any state with ease factor at least 1.3 (the initial
state included), every intermediate and final state of any finite rating
sequence applied via `calculateNextReview` keeps ease factor at least 1.3. -/
theorem srs_easeFactor_floor (s : SRSState) (rs : List ReviewQuality)
    (hs : (1.3 : ℚ) ≤ s.easeFactor) :
    ∀ t ∈ srsTrajectory s rs, (1.3 : ℚ) ≤ t.easeFactor := by
  induction rs generalizing s with
  | nil =>
    intro t ht
    simp only [srsTrajectory, List.mem_singleton] at ht
    exact ht ▸ hs
  | cons r rs ih =>
    intro t ht
    simp only [srsTrajectory, List.mem_cons] at ht
    rcases ht with rfl | ht
    · exact hs
    · exact ih (calculateNextReview s r) (easeFactor_step_floor s r) t ht

/-- Witness for C5: the state reached from the initial state after a
complete-blackout rating still respects the floor. -/
theorem srs_easeFactor_floor_witness :
    (1.3 : ℚ) ≤ (calculateNextReview createInitialSRSState
      { quality := 0, responseTime := none }).easeFactor :=
  srs_easeFactor_floor createInitialSRSState [{ quality := 0, responseTime := none }]
    (by norm_num [createInitialSRSState])
    (calculateNextReview createInitialSRSState { quality := 0, responseTime := none })
    (by simp [srsTrajectory])

/-- Clamp into [0,1], as the wording of claim C6 uses it. -/
def clamp01 (x : ℚ) : ℚ := max 0 (min 1 x)

/-- The mastery formula exactly as claim C6 words it: each of the two
components is clamped into [0,1] individually before weighting. -/
def masteryScorePerComponentClamp (state : SRSState) : ℤ :=
  round (100 * (0.4 * clamp01 ((state.easeFactor - 1.3) / (2.5 - 1.3)) +
    0.6 * clamp01 (state.repetitions / 10)))

/-- Counterexample to C6: at ease factor 2.6 (reachable: one perfect answer
from the initial 2.5) and zero repetitions, the code gives 43 — the
unclamped ease component contributes more than 40 points — while the
claim's per-component formula gives 40. -/
theorem masteryScore_counterexample :
    calculateMasteryScore { interval := 1, easeFactor := 2.6, repetitions := 0 } = 43 ∧
    masteryScorePerComponentClamp
      { interval := 1, easeFactor := 2.6, repetitions := 0 } = 40 := by
  constructor
  · norm_num [calculateMasteryScore, jsMin, jsMax, jsRound_eq, round_eq]
  · norm_num [masteryScorePerComponentClamp, clamp01, min_def, max_def, round_eq]

/-- C6 amended: the clamp is applied to the weighted TOTAL, not to each
component: `masteryScore = round(100 · clamp01(0.4 · (ease−1.3)/(2.5−1.3) +
0.6 · min(repetitions/10, 1)))`.  The ease component is unclamped, so an
ease factor above 2.5 contributes more than 40 points (only the overall
score is capped at 100). -/
theorem calculateMasteryScore_total_clamp (state : SRSState) :
    calculateMasteryScore state =
      round (100 * clamp01 (0.4 * ((state.easeFactor - 1.3) / (2.5 - 1.3)) +
        0.6 * min (state.repetitions / 10) 1)) := by
  unfold calculateMasteryScore clamp01
  rw [jsRound_eq, jsMax_eq, jsMin_eq, jsMin_eq]
  congr 1
  rw [mul_max_of_nonneg _ _ (by norm_num : (0:ℚ) ≤ 100), mul_zero,
    mul_min_of_nonneg _ _ (by norm_num : (0:ℚ) ≤ 100), mul_one]
  congr 1
  congr 1
  ring

/-- Counterexample to C7: a provided latency of 0 ms is treated like a
missing latency (JS falsiness of `0`), so the quality is 4, not the claimed
5 — and quality rises from 4 to 5 as latency grows from 0 ms to 1 ms. -/
theorem swipeToQuality_zero_latency_counterexample :
    (swipeToQuality true (some 0)).quality = 4 ∧
    (swipeToQuality true (some 1)).quality = 5 := by
  constructor <;> norm_num [swipeToQuality]

/-- C7 amended: incorrect swipes give quality 0 at every latency; correct
swipes give 4 when the latency is missing OR exactly 0 ms (JS treats 0 as
unprovided), 5 for latency strictly between 0 and 3000 ms, 4 on
[3000, 7000), and 3 everywhere at or above 7000 ms; the quality of a correct
swipe is never below 3 and never increases as latency grows over strictly
positive latencies. -/
theorem swipeToQuality_spec :
    (∀ t : Option ℚ, (swipeToQuality false t).quality = 0) ∧
    (swipeToQuality true none).quality = 4 ∧
    (swipeToQuality true (some 0)).quality = 4 ∧
    (∀ t : ℚ, 0 < t → t < 3000 → (swipeToQuality true (some t)).quality = 5) ∧
    (∀ t : ℚ, 3000 ≤ t → t < 7000 → (swipeToQuality true (some t)).quality = 4) ∧
    (∀ t : ℚ, 7000 ≤ t → (swipeToQuality true (some t)).quality = 3) ∧
    (∀ t : Option ℚ, 3 ≤ (swipeToQuality true t).quality) ∧
    (∀ t₁ t₂ : ℚ, 0 < t₁ → t₁ ≤ t₂ →
      (swipeToQuality true (some t₂)).quality ≤
        (swipeToQuality true (some t₁)).quality) := by
  refine ⟨fun t => by simp [swipeToQuality], by simp [swipeToQuality], by
    norm_num [swipeToQuality], ?_, ?_, ?_, ?_, ?_⟩
  · intro t h0 h3
    simp only [swipeToQuality, Bool.not_true, Bool.false_eq_true, if_false,
      apply_ite ReviewQuality.quality]
    split_ifs <;> linarith
  · intro t h3 h7
    simp only [swipeToQuality, Bool.not_true, Bool.false_eq_true, if_false,
      apply_ite ReviewQuality.quality]
    split_ifs <;> linarith
  · intro t h7
    simp only [swipeToQuality, Bool.not_true, Bool.false_eq_true, if_false,
      apply_ite ReviewQuality.quality]
    split_ifs <;> linarith
  · intro t
    cases t with
    | none => norm_num [swipeToQuality]
    | some t =>
      simp only [swipeToQuality, Bool.not_true, Bool.false_eq_true, if_false,
        apply_ite ReviewQuality.quality]
      split_ifs <;> norm_num
  · intro t₁ t₂ h1 h12
    simp only [swipeToQuality, Bool.not_true, Bool.false_eq_true, if_false,
      apply_ite ReviewQuality.quality]
    split_ifs <;> linarith

/-- Witness for C7 amended, at concrete latencies in each band. -/
theorem swipeToQuality_spec_witness :
    (swipeToQuality true (some 2000)).quality = 5 ∧
    (swipeToQuality true (some 4000)).quality = 4 ∧
    (swipeToQuality true (some 20000)).quality = 3 ∧
    (swipeToQuality true (some 9000)).quality ≤
      (swipeToQuality true (some 500)).quality :=
  ⟨swipeToQuality_spec.2.2.2.1 2000 (by norm_num) (by norm_num),
   swipeToQuality_spec.2.2.2.2.1 4000 (by norm_num) (by norm_num),
   swipeToQuality_spec.2.2.2.2.2.1 20000 (by norm_num),
   swipeToQuality_spec.2.2.2.2.2.2.2 500 9000 (by norm_num) (by norm_num)⟩

/-! ## Concrete fixtures used by witnesses and counterexamples -/

/-- A session loadout. -/
def loadoutJS : Loadout :=
  { language := "JS", topics := ["arrays"], difficulty := "easy",
    sessionLength := 10 }

/-- A small content card; `mkCard n` has id `"g" ++ n`. -/
def mkCard (n : ℕ) : Card :=
  { id := "g" ++ toString n, type := "quiz", lang := "JS",
    difficulty := "easy", question := "q", answer := "a", explanation := "e",
    roast := "" }

/-- A bundled-source row for language "JS". -/
def bundledRow : DbCard :=
  { id := "b1", type := "quiz", lang := "JS", difficulty := "easy",
    question := "q", answer := "a", explanation := "e", roast := "",
    source := "bundled", aiModel := none, topic := none, createdAt := 0,
    status := CardStatus.new, masteryScore := 0, nextReview := none,
    intervalDays := 1, easeFactor := 2.5, reviewCount := 0, timesSeen := 0,
    timesCorrect := 0, timesWrong := 0, avgResponseTime := none }

/-- A generated ("ai") cache row created 40 days before time 0. -/
def oldAiRow : DbCard :=
  { id := "a1", type := "quiz", lang := "JS", difficulty := "easy",
    question := "q", answer := "a", explanation := "e", roast := "",
    source := "ai", aiModel := none, topic := none,
    createdAt := -3456000000, status := CardStatus.new, masteryScore := 0,
    nextReview := none, intervalDays := 1, easeFactor := 2.5,
    reviewCount := 0, timesSeen := 0, timesCorrect := 0, timesWrong := 0,
    avgResponseTime := none }

/-- A generated ("ai") cache row created 1 day before time 0. -/
def freshAiRow : DbCard :=
  { id := "a2", type := "quiz", lang := "JS", difficulty := "easy",
    question := "q", answer := "a", explanation := "e", roast := "",
    source := "ai", aiModel := none, topic := none, createdAt := -86400000,
    status := CardStatus.new, masteryScore := 0, nextReview := none,
    intervalDays := 1, easeFactor := 2.5, reviewCount := 0, timesSeen := 0,
    timesCorrect := 0, timesWrong := 0, avgResponseTime := none }

/-- A generator that always fails. -/
def genDown : Generator := fun _ => Except.error "generator offline"

/-- A generator that always yields the requested number of cards. -/
def genOk : Generator := fun req => Except.ok ((List.range req.count).map mkCard)

/-! ## fetchCards characterization lemmas -/

/-- When the cache covers the request, `fetchCards` serves it from cache. -/
theorem fetchCards_cache_hit (gen : Generator) (insertFails : Bool)
    (db : List DbCard) (now : ℚ) (loadout : Loadout) (count : ℕ)
    (hc : count ≤ (DeckService.getCachedCards db now loadout count).length) :
    DeckService.fetchCards gen insertFails db now loadout count =
      ((DeckService.getCachedCards db now loadout count).take count, db) := by
  unfold DeckService.fetchCards
  rw [if_pos hc]

/-- When the cache is short and the generator fails, `fetchCards` serves
bundled cards and leaves the store unchanged. -/
theorem fetchCards_gen_error (gen : Generator) (insertFails : Bool)
    (db : List DbCard) (now : ℚ) (loadout : Loadout) (count : ℕ) (e : String)
    (hc : ¬ count ≤ (DeckService.getCachedCards db now loadout count).length)
    (he : gen ⟨loadout.language, loadout.topics, loadout.difficulty,
        count - (DeckService.getCachedCards db now loadout count).length, []⟩
      = Except.error e) :
    DeckService.fetchCards gen insertFails db now loadout count =
      (DeckService.getBundledCards db loadout count, db) := by
  unfold DeckService.fetchCards
  rw [if_neg hc]
  dsimp only
  rw [he]

/-- When the cache is short and the generator succeeds, `fetchCards` serves
cached plus generated cards and persists via `saveToCache`. -/
theorem fetchCards_gen_ok (gen : Generator) (insertFails : Bool)
    (db : List DbCard) (now : ℚ) (loadout : Loadout) (count : ℕ)
    (cs : List Card)
    (hc : ¬ count ≤ (DeckService.getCachedCards db now loadout count).length)
    (hok : gen ⟨loadout.language, loadout.topics, loadout.difficulty,
        count - (DeckService.getCachedCards db now loadout count).length, []⟩
      = Except.ok cs) :
    DeckService.fetchCards gen insertFails db now loadout count =
      ((DeckService.getCachedCards db now loadout count ++ cs).take count,
       DeckService.saveToCache insertFails db now cs) := by
  unfold DeckService.fetchCards
  rw [if_neg hc]
  dsimp only
  rw [hok]

/-! ## Card supply pipeline (claims C1, C10) -/

/-- C1 amended: with a generator that always throws, `fetchCards` never
propagates the failure; it returns exactly `count` cards when the fresh
cache covers the request, else exactly `min count B` bundled cards where `B`
is the number of bundled rows for the loadout's language; in particular the
result is non-empty whenever `count ≥ 1` and at least one bundled row for
that language exists.  (At `count = 0` the result is empty — see the
counterexample — which is the only deviation from the claim as stated.) -/
theorem fetchCards_supply (gen : Generator) (insertFails : Bool)
    (db : List DbCard) (now : ℚ) (loadout : Loadout) (count : ℕ)
    (hgen : ∀ req, ∃ e, gen req = Except.error e) :
    (count ≤ (DeckService.getCachedCards db now loadout count).length →
      (DeckService.fetchCards gen insertFails db now loadout count).1 =
        (DeckService.getCachedCards db now loadout count).take count ∧
      (DeckService.fetchCards gen insertFails db now loadout count).1.length =
        count) ∧
    ((DeckService.getCachedCards db now loadout count).length < count →
      (DeckService.fetchCards gen insertFails db now loadout count).1 =
        ((db.filter (fun r =>
          r.lang == loadout.language && r.source == "bundled")).take count).map
          dbToCard ∧
      (DeckService.fetchCards gen insertFails db now loadout count).1.length =
        min count (db.filter (fun r =>
          r.lang == loadout.language && r.source == "bundled")).length) ∧
    (1 ≤ count →
      db.filter (fun r => r.lang == loadout.language && r.source == "bundled") ≠ [] →
      (DeckService.fetchCards gen insertFails db now loadout count).1 ≠ []) := by
  have hcache : count ≤ (DeckService.getCachedCards db now loadout count).length →
      (DeckService.fetchCards gen insertFails db now loadout count).1 =
        (DeckService.getCachedCards db now loadout count).take count ∧
      (DeckService.fetchCards gen insertFails db now loadout count).1.length =
        count := by
    intro hc
    rw [fetchCards_cache_hit gen insertFails db now loadout count hc]
    dsimp only
    refine ⟨rfl, ?_⟩
    rw [List.length_take]
    omega
  have hbundled : (DeckService.getCachedCards db now loadout count).length < count →
      (DeckService.fetchCards gen insertFails db now loadout count).1 =
        ((db.filter (fun r =>
          r.lang == loadout.language && r.source == "bundled")).take count).map
          dbToCard ∧
      (DeckService.fetchCards gen insertFails db now loadout count).1.length =
        min count (db.filter (fun r =>
          r.lang == loadout.language && r.source == "bundled")).length := by
    intro hc
    obtain ⟨e, he⟩ := hgen ⟨loadout.language, loadout.topics,
      loadout.difficulty,
      count - (DeckService.getCachedCards db now loadout count).length, []⟩
    rw [fetchCards_gen_error gen insertFails db now loadout count e
      (not_le.mpr hc) he]
    dsimp only
    refine ⟨rfl, ?_⟩
    unfold DeckService.getBundledCards
    rw [List.length_map, List.length_take]
  refine ⟨hcache, hbundled, ?_⟩
  intro h1 hb
  by_cases hc : count ≤ (DeckService.getCachedCards db now loadout count).length
  · obtain ⟨-, hlen⟩ := hcache hc
    intro hnil
    rw [hnil] at hlen
    simp at hlen
    omega
  · obtain ⟨-, hlen⟩ := hbundled (not_le.mp hc)
    have hpos : 0 < (db.filter (fun r =>
        r.lang == loadout.language && r.source == "bundled")).length :=
      List.length_pos.mpr hb
    intro hnil
    rw [hnil] at hlen
    simp at hlen
    omega

/-- Witness for C1 amended: generator down, one bundled JS row, count 3 —
the cache (empty) cannot cover the request, so the result is exactly the
bundled row, and in particular non-empty. -/
theorem fetchCards_supply_witness :
    (DeckService.fetchCards genDown false [bundledRow] 0 loadoutJS 3).1 =
      (([bundledRow].filter (fun r =>
        r.lang == loadoutJS.language && r.source == "bundled")).take 3).map
        dbToCard ∧
    (DeckService.fetchCards genDown false [bundledRow] 0 loadoutJS 3).1 ≠ [] :=
  ⟨((fetchCards_supply genDown false [bundledRow] 0 loadoutJS 3
      (fun _ => ⟨"generator offline", rfl⟩)).2.1 (by decide)).1,
   (fetchCards_supply genDown false [bundledRow] 0 loadoutJS 3
      (fun _ => ⟨"generator offline", rfl⟩)).2.2 (by norm_num) (by decide)⟩

/-- Counterexample to C1 as stated: at count 0 the cache trivially covers
the request (`0 ≥ 0`), so the result is empty even though a bundled card
for the language exists and the generator always throws. -/
theorem fetchCards_zero_count_counterexample :
    (DeckService.fetchCards genDown false [bundledRow] 0 loadoutJS 0).1 = [] ∧
    [bundledRow].filter (fun r =>
      r.lang == loadoutJS.language && r.source == "bundled") ≠ [] := by
  constructor
  · rw [fetchCards_cache_hit genDown false [bundledRow] 0 loadoutJS 0 (Nat.zero_le _)]
    simp
  · decide

/-- C10: when the generator succeeds but the cache insert fails with a store
error, `fetchCards` still returns the cached-plus-generated cards —
`saveToCache` swallows its own failure, so the result is the same as with a
healthy store (only the returned database contents differ). -/
theorem fetchCards_insert_failure_swallowed (gen : Generator)
    (db : List DbCard) (now : ℚ) (loadout : Loadout) (count : ℕ)
    (cs : List Card)
    (hc : (DeckService.getCachedCards db now loadout count).length < count)
    (hok : gen ⟨loadout.language, loadout.topics, loadout.difficulty,
        count - (DeckService.getCachedCards db now loadout count).length, []⟩
      = Except.ok cs) :
    (DeckService.fetchCards gen true db now loadout count).1 =
      (DeckService.getCachedCards db now loadout count ++ cs).take count ∧
    (DeckService.fetchCards gen true db now loadout count).1 =
      (DeckService.fetchCards gen false db now loadout count).1 := by
  have hc1 : ¬ count ≤ (DeckService.getCachedCards db now loadout count).length :=
    not_le.mpr hc
  rw [fetchCards_gen_ok gen true db now loadout count cs hc1 hok,
    fetchCards_gen_ok gen false db now loadout count cs hc1 hok]
  exact ⟨rfl, rfl⟩

/-- Witness for C10: empty cache, generator yields 2 cards, insert failing;
the same card list comes back as with a healthy store. -/
theorem fetchCards_insert_failure_swallowed_witness :
    (DeckService.fetchCards genOk true [] 0 loadoutJS 2).1 =
      (DeckService.getCachedCards [] 0 loadoutJS 2 ++
        (List.range 2).map mkCard).take 2 ∧
    (DeckService.fetchCards genOk true [] 0 loadoutJS 2).1 =
      (DeckService.fetchCards genOk false [] 0 loadoutJS 2).1 :=
  fetchCards_insert_failure_swallowed genOk [] 0 loadoutJS 2
    ((List.range 2).map mkCard) (by simp [DeckService.getCachedCards]) rfl

/-! ## Cache maintenance (claim C2) -/

/-- C2 (code bug): `clearOldCache` run at time 0 on a store holding a
40-day-old and a 1-day-old generated ("ai") row DELETES the 1-day-old row
and KEEPS the 40-day-old one.  The source's delete predicate is
`source = "ai" AND createdAt >= now - 30 days` (`gte`), which selects the
RECENT rows — the reverse of the documented "Clear old cache entries
(30+ days)" sweep. -/
theorem clearOldCache_deletes_fresh_keeps_old :
    DeckService.clearOldCache [oldAiRow, freshAiRow] 0 = [oldAiRow] := by
  norm_num [DeckService.clearOldCache, oldAiRow, freshAiRow]

/-! ## Session queue (claim C3) -/

/-- Twelve distinct content cards. -/
def queue12 : List Card := (List.range 12).map mkCard

/-- Counterexample to C3: with 12 cards and cursor 9, remaining is 3 and
`needsRefill` is `3 < 3`, i.e. FALSE (the claim says true); and even when a
refill does run (cursor 10, remaining 2) with a generator that successfully
yields 5 cards, the queue length stays 12, not 17. -/
theorem sessionQueue_counterexample :
    DeckSlice.needsRefill
      { queue := queue12, currentIndex := 9, isGenerating := false,
        loadout := some loadoutJS } = false ∧
    (DeckSlice.refillQueue genOk false [] 0
      { queue := queue12, currentIndex := 10, isGenerating := false,
        loadout := some loadoutJS }).1.queue.length = 12 := by
  constructor
  · decide
  · decide

/-- C3 amended: at 12 cards and cursor 9 (remaining 3) `needsRefill` is
false; it turns true one consume later (cursor 10, remaining 2).  The
refill triggered there resolves the 5-card prefetch into the CACHE (the
store grows by 5 rows) while the slice state is unchanged — in general
`refillQueue` never changes the queue or the cursor, because
`deckService.prefetchCards` returns `Promise<void>`, so the slice's
`newCards.length > 0` check throws into its catch block before `addCards`
can ever run. -/
theorem sessionQueue_refill_amended :
    DeckSlice.needsRefill
      { queue := queue12, currentIndex := 9, isGenerating := false,
        loadout := some loadoutJS } = false ∧
    DeckSlice.needsRefill
      { queue := queue12, currentIndex := 10, isGenerating := false,
        loadout := some loadoutJS } = true ∧
    (DeckSlice.refillQueue genOk false [] 0
      { queue := queue12, currentIndex := 10, isGenerating := false,
        loadout := some loadoutJS }).1 =
      { queue := queue12, currentIndex := 10, isGenerating := false,
        loadout := some loadoutJS } ∧
    (DeckSlice.refillQueue genOk false [] 0
      { queue := queue12, currentIndex := 10, isGenerating := false,
        loadout := some loadoutJS }).2.length = 5 ∧
    (∀ (gen : Generator) (insertFails : Bool) (db : List DbCard) (now : ℚ)
      (s : DeckSliceState),
      (DeckSlice.refillQueue gen insertFails db now s).1.queue = s.queue ∧
      (DeckSlice.refillQueue gen insertFails db now s).1.currentIndex =
        s.currentIndex) := by
  refine ⟨by decide, by decide, by decide, by decide, ?_⟩
  intro gen insertFails db now s
  obtain ⟨q, i, g, lo⟩ := s
  cases lo with
  | none => exact ⟨rfl, rfl⟩
  | some l =>
    unfold DeckSlice.refillQueue
    dsimp only
    split_ifs <;> exact ⟨rfl, rfl⟩

/-! ## Due-card selection (claim C8) -/

/-- C8 amended: every record with status "new" satisfies the due predicate
regardless of its `nextReview`, and it appears in the result of
`getDueCards(limit)` whenever the due records fit inside the limit.  (The
`limit` cap can cut a "new" card out of the result — see the
counterexample — which is what the universal claim misses.) -/
theorem getDueCards_new_superset (db : List DbCard) (now : ℚ) (limit : ℕ)
    (r : DbCard) (hr : r ∈ db) (hnew : r.status = CardStatus.new) :
    ReviewScheduler.dueFilter now r = true ∧
    ((db.filter (ReviewScheduler.dueFilter now)).length ≤ limit →
      dbToCard r ∈ ReviewScheduler.getDueCards db now limit) := by
  have hdf : ReviewScheduler.dueFilter now r = true := by
    unfold ReviewScheduler.dueFilter
    rw [hnew]
    simp
  refine ⟨hdf, fun hlim => ?_⟩
  unfold ReviewScheduler.getDueCards
  rw [List.take_of_length_le hlim]
  exact List.mem_map_of_mem dbToCard (List.mem_filter.mpr ⟨hr, hdf⟩)

/-- A "new"-status row scheduled far in the future. -/
def newRowFuture : DbCard :=
  { id := "n1", type := "quiz", lang := "JS", difficulty := "easy",
    question := "q", answer := "a", explanation := "e", roast := "",
    source := "ai", aiModel := none, topic := none, createdAt := 0,
    status := CardStatus.new, masteryScore := 0,
    nextReview := some 999999999999, intervalDays := 1, easeFactor := 2.5,
    reviewCount := 0, timesSeen := 0, timesCorrect := 0, timesWrong := 0,
    avgResponseTime := none }

/-- A second "new"-status row, distinct id. -/
def newRowB : DbCard :=
  { id := "n2", type := "quiz", lang := "JS", difficulty := "easy",
    question := "q", answer := "a", explanation := "e", roast := "",
    source := "ai", aiModel := none, topic := none, createdAt := 0,
    status := CardStatus.new, masteryScore := 0, nextReview := none,
    intervalDays := 1, easeFactor := 2.5, reviewCount := 0, timesSeen := 0,
    timesCorrect := 0, timesWrong := 0, avgResponseTime := none }

/-- Witness for C8 amended: a "new" card whose `nextReview` lies far in the
future is still served by `getDueCards`. -/
theorem getDueCards_new_superset_witness :
    dbToCard newRowFuture ∈ ReviewScheduler.getDueCards [newRowFuture] 0 20 :=
  (getDueCards_new_superset [newRowFuture] 0 20 newRowFuture
    (List.mem_singleton.mpr rfl) rfl).2 (by decide)

/-- Counterexample to C8 as stated: with two "new" records and limit 1, the
second "new" record is missing from the result. -/
theorem getDueCards_limit_counterexample :
    newRowB ∈ [newRowFuture, newRowB] ∧ newRowB.status = CardStatus.new ∧
    dbToCard newRowB ∉ ReviewScheduler.getDueCards [newRowFuture, newRowB] 0 1 := by
  refine ⟨List.mem_cons_of_mem _ (List.mem_singleton.mpr rfl), rfl, by decide⟩

/-! ## Adding a missed card (claim C9) -/

/-- C9: `addToReviewDeck` on an id already in the store behaves exactly as
`recordReview(id, correct = false)`; on a fresh id it inserts one new row
carrying the initial SRS state (interval 1, ease 2.5, repetitions 0), status
"learning", timesSeen 1, timesWrong 1, timesCorrect 0, and the
session-added source tag (stored as "session"). -/
theorem addToReviewDeck_spec (db : List DbCard) (now : ℚ) (card : Card) :
    ((∃ r ∈ db, r.id = card.id) →
      ReviewScheduler.addToReviewDeck db now card =
        ReviewScheduler.recordReview db now card.id false none) ∧
    ((∀ r ∈ db, r.id ≠ card.id) →
      ReviewScheduler.addToReviewDeck db now card = Except.ok (db ++ [{
        id := card.id, type := card.type, lang := card.lang,
        difficulty := card.difficulty, question := card.question,
        answer := card.answer, explanation := card.explanation,
        roast := card.roast, source := "session", aiModel := none,
        topic := none, createdAt := now, status := CardStatus.learning,
        masteryScore := 0, nextReview := some (now + 1 * msPerDay),
        intervalDays := 1, easeFactor := 2.5, reviewCount := 0,
        timesSeen := 1, timesCorrect := 0, timesWrong := 1,
        avgResponseTime := none }])) := by
  constructor
  · rintro ⟨r, hr, hid⟩
    unfold ReviewScheduler.addToReviewDeck
    have hsome : (db.find? (fun q => q.id == card.id)).isSome := by
      rw [List.find?_isSome]
      exact ⟨r, hr, by simp [hid]⟩
    obtain ⟨x, hx⟩ := Option.isSome_iff_exists.mp hsome
    rw [hx]
  · intro h
    unfold ReviewScheduler.addToReviewDeck
    have hnone : db.find? (fun q => q.id == card.id) = none :=
      List.find?_eq_none.mpr (fun x hx => by simp [h x hx])
    rw [hnone]
    rfl

/-- Witness for C9 at a fresh id on the empty store. -/
theorem addToReviewDeck_spec_witness :
    ReviewScheduler.addToReviewDeck [] 0 (mkCard 0) = Except.ok [{
      id := (mkCard 0).id, type := (mkCard 0).type, lang := (mkCard 0).lang,
      difficulty := (mkCard 0).difficulty, question := (mkCard 0).question,
      answer := (mkCard 0).answer, explanation := (mkCard 0).explanation,
      roast := (mkCard 0).roast, source := "session", aiModel := none,
      topic := none, createdAt := 0, status := CardStatus.learning,
      masteryScore := 0, nextReview := some (0 + 1 * msPerDay),
      intervalDays := 1, easeFactor := 2.5, reviewCount := 0,
      timesSeen := 1, timesCorrect := 0, timesWrong := 1,
      avgResponseTime := none }] :=
  (addToReviewDeck_spec [] 0 (mkCard 0)).2 (by simp)
